import Mathlib

/-!
Verification of `src/reorder_migration.py`, a one-shot migration-file
reordering utility.  The script reads a file as a list of lines, slices it
into four segments at three hard-coded zero-based boundary offsets, writes
the segments back in the order Part1, Middle, Part2, Rest, and prints one
confirmation line.

The embedding below models Python list slicing exactly (clamping to the
list length, negative indices counting from the end, total — slicing never
raises), the pure reordering `new_content` from lines 18–24 of the source,
and the run of the script over an abstract filesystem for the I/O claims.
-/

namespace ReorderMigration

/-- Effective index of the Python slice bound `i` for a list of length
`len`: a negative `i` counts from the end (clamped below at 0), a
non-negative `i` is clamped above at `len`.  This is CPython's
`PySlice_AdjustIndices` behaviour; slicing is total for every integer. -/
def pyBound (len : Nat) (i : Int) : Nat :=
  if i < 0 then ((len : Int) + i).toNat else min i.toNat len

/-- Python slice `l[i:j]`: the elements with positions in
`[pyBound len i, pyBound len j)`.  Total for all integer bounds. -/
def pySlice {α : Type*} (l : List α) (i j : Int) : List α :=
  (l.take (pyBound l.length j)).drop (pyBound l.length i)

/-- Source line 14: `idx_part2 = 46 - 1`. -/
def idx_part2 : Int := 46 - 1

/-- Source line 15: `idx_part3 = 183 - 1`. -/
def idx_part3 : Int := 183 - 1

/-- Source line 16: `idx_part11 = 885 - 1`. -/
def idx_part11 : Int := 885 - 1

/-- Source line 18: `part1 = lines[:idx_part2]` (omitted start is 0),
with the boundary generalised to a parameter `a`. -/
def part1 {α : Type*} (lines : List α) (a : Int) : List α :=
  pySlice lines 0 a

/-- Source line 19: `part2 = lines[idx_part2:idx_part3]`, boundaries
generalised to parameters. -/
def part2 {α : Type*} (lines : List α) (a b : Int) : List α :=
  pySlice lines a b

/-- Source line 20: `middle = lines[idx_part3:idx_part11]`, boundaries
generalised to parameters. -/
def middle {α : Type*} (lines : List α) (b c : Int) : List α :=
  pySlice lines b c

/-- Source line 21: `rest = lines[idx_part11:]` (omitted end is the
length), boundary generalised to a parameter `c`. -/
def rest {α : Type*} (lines : List α) (c : Int) : List α :=
  pySlice lines c lines.length

/-- Source line 24: `new_content = part1 + middle + part2 + rest`,
with the three boundary offsets as parameters. -/
def new_content {α : Type*} (lines : List α) (a b c : Int) : List α :=
  part1 lines a ++ middle lines b c ++ part2 lines a b ++ rest lines c

/-- The script's reordering with its hard-coded boundary offsets. -/
def reorder (lines : List String) : List String :=
  new_content lines idx_part2 idx_part3 idx_part11

/-- Modelled from the spec (section 8, concrete scenario; section 3,
half-open slicing): the output formula
`lines[0:A] + lines[B:C] + lines[A:B] + lines[C:]` written with the
spec's half-open natural-number ranges, independent of the source's
Python-slice embedding.  `specSlice l i j` is the spec's `lines[i:j]`. -/
def specSlice {α : Type*} (l : List α) (i j : Nat) : List α :=
  (l.drop i).take (j - i)

/-- Modelled from the spec: the whole output formula
`lines[0:A] + lines[B:C] + lines[A:B] + lines[C:]`. -/
def spec_new_content {α : Type*} (lines : List α) (a b c : Nat) : List α :=
  specSlice lines 0 a ++ specSlice lines b c ++ specSlice lines a b ++
    specSlice lines c lines.length

/-- Source line 4: the hard-coded target path. -/
def filepath : String := "supabase/migrations/20260120120000_lovable_export.sql"

/-- Source line 29: the literal confirmation message passed to `print`. -/
def successMessage : String := "Successfully reordered migration file."

/-- A file of the modelled filesystem: its lines (as produced by
`readlines`, terminators included) and whether the process may read it. -/
structure File where
  readable : Bool
  content : List String

/-- The modelled filesystem: a partial map from paths to files. -/
abbrev FS : Type := String → Option File

/-- The faults `open(filepath, 'r')` can raise before anything is
written: `FileNotFoundError` for a missing path, `PermissionError` for an
unreadable one. -/
inductive IoError where
  | fileNotFound
  | permissionDenied
deriving DecidableEq

/-- One run of the script over the modelled filesystem, source lines
6–29: open and read the file (raising before any write when the path is
missing or unreadable), compute `new_content` with the hard-coded
boundaries, overwrite the same path, print the confirmation.  The result
is the exit status, the filesystem afterwards, and the lines written to
standard output. -/
def run (fs : FS) : Except IoError Unit × FS × List String :=
  match fs filepath with
  | none => (Except.error IoError.fileNotFound, fs, [])
  | some f =>
    if f.readable then
      (Except.ok (),
        fun p => if p = filepath then some ⟨true, reorder f.content⟩ else fs p,
        [successMessage])
    else (Except.error IoError.permissionDenied, fs, [])

/-- A concrete 10-line file used to instantiate the general theorems. -/
def l10 : List ℕ := [0, 1, 2, 3, 4, 5, 6, 7, 8, 9]

section SliceLemmas

variable {α : Type*}

theorem pyBound_natCast (len n : Nat) : pyBound len (n : Int) = min n len := by
  unfold pyBound
  rw [if_neg (by omega), Int.toNat_natCast]

theorem pySlice_natCast (l : List α) (a b : Nat) :
    pySlice l (a : Int) (b : Int) = (l.drop a).take (b - a) := by
  unfold pySlice
  rw [pyBound_natCast, pyBound_natCast, List.drop_take]
  rcases le_or_lt a l.length with ha | ha
  · rcases le_or_lt b l.length with hb | hb
    · rw [Nat.min_eq_left hb, Nat.min_eq_left ha]
    · rw [Nat.min_eq_right (le_of_lt hb), Nat.min_eq_left ha,
        List.take_of_length_le (by simp), List.take_of_length_le (by simp; omega)]
  · have h1 : l.drop a = [] := List.drop_eq_nil_of_le (le_of_lt ha)
    have h2 : l.drop (min a l.length) = l.drop l.length := by
      rw [Nat.min_eq_right (le_of_lt ha)]
    rw [h2, List.drop_length, h1, List.take_nil, List.take_nil]

/-- Gluing adjacent slices: `l[a:b] ++ l[b:c] = l[a:c]` for `a ≤ b ≤ c`. -/
theorem slice_glue (l : List α) {a b c : Nat} (hab : a ≤ b) (hbc : b ≤ c) :
    (l.drop a).take (b - a) ++ (l.drop b).take (c - b) = (l.drop a).take (c - a) := by
  have h : c - a = (b - a) + (c - b) := by omega
  rw [h, List.take_add, List.drop_drop]
  have h2 : a + (b - a) = b := by omega
  rw [h2]

/-- Any list decomposes into its four slices at ordered boundaries. -/
theorem slice_decomp (l : List α) {a b c : Nat} (hab : a ≤ b) (hbc : b ≤ c) :
    l.take a ++ ((l.drop a).take (b - a) ++ ((l.drop b).take (c - b) ++ l.drop c)) = l := by
  have h1 : (l.drop b).take (c - b) ++ l.drop c = l.drop b := by
    have hc : l.drop c = (l.drop b).drop (c - b) := by
      rw [List.drop_drop]
      congr 1
      omega
    rw [hc, List.take_append_drop]
  have h2 : (l.drop a).take (b - a) ++ l.drop b = l.drop a := by
    have hb : l.drop b = (l.drop a).drop (b - a) := by
      rw [List.drop_drop]
      congr 1
      omega
    rw [hb, List.take_append_drop]
  rw [h1, h2, List.take_append_drop]

/-- Three-piece decomposition: `l = l[0:a] ++ l[a:c] ++ l[c:]` for `a ≤ c`. -/
theorem slice_decomp3 (l : List α) {a c : ℕ} (hac : a ≤ c) :
    l.take a ++ ((l.drop a).take (c - a) ++ l.drop c) = l := by
  have h : l.drop c = (l.drop a).drop (c - a) := by
    rw [List.drop_drop]
    congr 1
    omega
  rw [h, List.take_append_drop, List.take_append_drop]

/-- `new_content` written out as slice operations on natural boundaries. -/
theorem new_content_natCast (l : List α) (a b c : ℕ) :
    new_content l (a : Int) (b : Int) (c : Int) =
      l.take a ++ ((l.drop b).take (c - b) ++ ((l.drop a).take (b - a) ++ l.drop c)) := by
  unfold new_content part1 middle part2 rest
  have hrest : (l.drop c).take (l.length - c) = l.drop c :=
    List.take_of_length_le (by simp)
  rw [show (0 : Int) = ((0 : ℕ) : Int) from rfl,
    pySlice_natCast, pySlice_natCast, pySlice_natCast, pySlice_natCast,
    List.drop_zero, Nat.sub_zero, hrest]
  simp only [List.append_assoc]

/-- Action of `new_content` on a list presented as four blocks whose
lengths match the boundaries: the second and third blocks are exchanged. -/
theorem new_content_blocks (w x y z : List α) {a b c : ℕ}
    (hw : w.length = a) (hx : x.length = b - a) (hy : y.length = c - b)
    (hab : a ≤ b) (hbc : b ≤ c) :
    new_content (w ++ (x ++ (y ++ z))) (a : Int) (b : Int) (c : Int) =
      w ++ (y ++ (x ++ z)) := by
  rw [new_content_natCast]
  have hT : (w ++ (x ++ (y ++ z))).take a = w := List.take_left' hw
  have hL : (w ++ (x ++ (y ++ z))).drop a = x ++ (y ++ z) := List.drop_left' hw
  have hdb : (w ++ (x ++ (y ++ z))).drop b = y ++ z := by
    have hb : b = a + (b - a) := by omega
    rw [hb, ← List.drop_drop, hL, List.drop_left' hx]
  have hdc : (w ++ (x ++ (y ++ z))).drop c = z := by
    have hc : c = b + (c - b) := by omega
    rw [hc, ← List.drop_drop, hdb, List.drop_left' hy]
  rw [hT, hdb, hL, hdc, List.take_left' hy, List.take_left' hx]

/-- Every Python slice is contained in the sliced list, for arbitrary
integer bounds. -/
theorem pySlice_subset (l : List α) (i j : Int) : pySlice l i j ⊆ l := by
  unfold pySlice
  exact (List.drop_subset _ _).trans (List.take_subset _ _)

end SliceLemmas

section Claims

variable {α : Type*}

/-- Claim C1: for every line sequence and offsets with
`0 ≤ A ≤ B ≤ C ≤ length lines`, the reordered output equals
`lines[0:A] ++ lines[B:C] ++ lines[A:B] ++ lines[C:]` (the spec's
formula); the concrete 10-line scenario is the witness below. -/
theorem new_content_eq_spec_formula (lines : List α) (a b c : ℕ)
    (hab : a ≤ b) (hbc : b ≤ c) (hcl : c ≤ lines.length) :
    new_content lines (a : Int) (b : Int) (c : Int) = spec_new_content lines a b c := by
  rw [new_content_natCast]
  unfold spec_new_content specSlice
  rw [List.drop_zero, Nat.sub_zero,
    show (lines.drop c).take (lines.length - c) = lines.drop c from
      List.take_of_length_le (by simp)]
  simp only [List.append_assoc]

/-- Witness for C1 at the spec's concrete scenario: a 10-line file with
`A = 2`, `B = 4`, `C = 8` yields `lines[0:2] ++ lines[4:8] ++ lines[2:4]
++ lines[8:10]`. -/
theorem new_content_eq_spec_formula_witness :
    new_content l10 (2 : Int) (4 : Int) (8 : Int) = spec_new_content l10 2 4 8 ∧
      spec_new_content l10 2 4 8 = [0, 1, 4, 5, 6, 7, 2, 3, 8, 9] :=
  ⟨new_content_eq_spec_formula l10 2 4 8 (by decide) (by decide) (by decide),
    by decide⟩

/-- Claim C2: under the boundary invariant the output has the same
length and the same multiset of lines as the input — the reordering
modifies, loses and duplicates nothing. -/
theorem new_content_length_and_perm (lines : List α) (a b c : ℕ)
    (hab : a ≤ b) (hbc : b ≤ c) (hcl : c ≤ lines.length) :
    (new_content lines (a : Int) (b : Int) (c : Int)).length = lines.length ∧
      List.Perm (new_content lines (a : Int) (b : Int) (c : Int)) lines := by
  have hperm : List.Perm (new_content lines (a : Int) (b : Int) (c : Int)) lines := by
    rw [new_content_natCast]
    conv_rhs => rw [← slice_decomp lines hab hbc]
    refine List.Perm.append_left _ ?_
    rw [← List.append_assoc, ← List.append_assoc]
    exact List.Perm.append_right _ List.perm_append_comm
  exact ⟨hperm.length_eq, hperm⟩

/-- Witness for C2 at the 10-line scenario. -/
theorem new_content_length_and_perm_witness :
    (new_content l10 (2 : Int) (4 : Int) (8 : Int)).length = l10.length ∧
      List.Perm (new_content l10 (2 : Int) (4 : Int) (8 : Int)) l10 :=
  new_content_length_and_perm l10 2 4 8 (by decide) (by decide) (by decide)

/-- Claim C3: under the boundary invariant, applying the inverse
permutation (Part1, Part2, Middle, Rest) to the output's four logical
ranges — the boundaries of the output are `A`, `A + (C - B)` and `C` —
reconstructs the original input exactly: the swap of Middle and Part2 is
its own inverse. -/
theorem new_content_swap_inverse (lines : List α) (a b c : ℕ)
    (hab : a ≤ b) (hbc : b ≤ c) (hcl : c ≤ lines.length) :
    new_content (new_content lines (a : Int) (b : Int) (c : Int))
      (a : Int) ((a + (c - b) : ℕ) : Int) (c : Int) = lines := by
  have hw : (lines.take a).length = a := by
    rw [List.length_take]
    omega
  have hout : new_content lines (a : Int) (b : Int) (c : Int) =
      lines.take a ++ ((lines.drop b).take (c - b) ++
        ((lines.drop a).take (b - a) ++ lines.drop c)) := new_content_natCast ..
  rw [hout,
    new_content_blocks _ _ _ _ hw (by simp; omega) (by simp; omega) (by omega) (by omega)]
  exact slice_decomp lines hab hbc

/-- Witness for C3 at the 10-line scenario: undoing the swap with output
boundaries `2`, `2 + (8 - 4)`, `8` restores the input. -/
theorem new_content_swap_inverse_witness :
    new_content (new_content l10 (2 : Int) (4 : Int) (8 : Int))
      (2 : Int) ((2 + (8 - 4) : ℕ) : Int) (8 : Int) = l10 :=
  new_content_swap_inverse l10 2 4 8 (by decide) (by decide) (by decide)

/-- Claim C4: the transformation is not idempotent — there are a line
sequence and invariant-satisfying offsets for which re-applying the same
reordering to its own output does not restore the original sequence. -/
theorem new_content_not_idempotent :
    ∃ (lines : List ℕ) (a b c : ℕ),
      (a ≤ b ∧ b ≤ c ∧ c ≤ lines.length) ∧
        new_content (new_content lines (a : Int) (b : Int) (c : Int))
          (a : Int) (b : Int) (c : Int) ≠ lines :=
  ⟨[1, 2, 3], 0, 1, 3, by decide, by decide⟩

/-- Claim C5: segments other than Middle and Part2 stay in place — under
the invariant the first `A` output lines equal the first `A` input lines
and the output from index `C` on equals the input from index `C` on. -/
theorem new_content_frame (lines : List α) (a b c : ℕ)
    (hab : a ≤ b) (hbc : b ≤ c) (hcl : c ≤ lines.length) :
    (new_content lines (a : Int) (b : Int) (c : Int)).take a = lines.take a ∧
      (new_content lines (a : Int) (b : Int) (c : Int)).drop c = lines.drop c := by
  rw [new_content_natCast]
  constructor
  · exact List.take_left' (by rw [List.length_take]; omega)
  · rw [show lines.take a ++ ((lines.drop b).take (c - b) ++
        ((lines.drop a).take (b - a) ++ lines.drop c)) =
        (lines.take a ++ ((lines.drop b).take (c - b) ++
          (lines.drop a).take (b - a))) ++ lines.drop c by
      simp [List.append_assoc]]
    exact List.drop_left' (by
      simp only [List.length_append, List.length_take, List.length_drop]
      omega)

/-- Witness for C5 at the 10-line scenario. -/
theorem new_content_frame_witness :
    (new_content l10 (2 : Int) (4 : Int) (8 : Int)).take 2 = l10.take 2 ∧
      (new_content l10 (2 : Int) (4 : Int) (8 : Int)).drop 8 = l10.drop 8 :=
  new_content_frame l10 2 4 8 (by decide) (by decide) (by decide)

/-- Claim C6: for arbitrary integer offsets — the invariant may be
violated, the offsets may even be negative — the slicing and
concatenation are total (`pySlice` embeds Python's never-raising slice
semantics) and silently produce possibly empty or malformed segments:
every line of the output still comes from the input, and no out-of-range
fault exists. -/
theorem new_content_total_no_fault (lines : List α) (a b c : Int) (x : α)
    (hx : x ∈ new_content lines a b c) : x ∈ lines := by
  unfold new_content part1 part2 middle rest at hx
  simp only [List.mem_append] at hx
  rcases hx with ((h | h) | h) | h
  all_goals exact pySlice_subset lines _ _ h

/-- Witness for C6 with offsets violating the invariant (`A = 5 > B = -1`
on a 2-line input): the slicing still succeeds and only reuses input
lines. -/
theorem new_content_total_no_fault_witness :
    (20 : ℕ) ∈ new_content ([10, 20] : List ℕ) 5 (-1) 3 ∧
      (20 : ℕ) ∈ ([10, 20] : List ℕ) :=
  ⟨by decide, new_content_total_no_fault [10, 20] 5 (-1) 3 20 (by decide)⟩

/-- Claim C7: when `A = B` the Part2 segment is empty and no line is
dropped — every input line appears in the output. -/
theorem empty_part2_no_line_dropped (lines : List α) (a c : ℕ)
    (hac : a ≤ c) (hcl : c ≤ lines.length) :
    part2 lines (a : Int) (a : Int) = [] ∧
      ∀ x ∈ lines, x ∈ new_content lines (a : Int) (a : Int) (c : Int) := by
  have hid : new_content lines (a : Int) (a : Int) (c : Int) = lines := by
    rw [new_content_natCast, Nat.sub_self, List.take_zero, List.nil_append]
    exact slice_decomp3 lines hac
  refine ⟨?_, ?_⟩
  · unfold part2
    rw [pySlice_natCast, Nat.sub_self, List.take_zero]
  · intro x hx
    rw [hid]
    exact hx

/-- Witness for C7 at the 10-line scenario with `A = B = 2`, `C = 8`. -/
theorem empty_part2_no_line_dropped_witness :
    part2 l10 (2 : Int) (2 : Int) = [] ∧
      ∀ x ∈ l10, x ∈ new_content l10 (2 : Int) (2 : Int) (8 : Int) :=
  empty_part2_no_line_dropped l10 2 8 (by decide) (by decide)

/-- Claim C10: when `B = C` (an empty Middle segment) and the invariant
holds, the reordering is the identity on the line sequence. -/
theorem empty_middle_identity (lines : List α) (a b : ℕ)
    (hab : a ≤ b) (hbl : b ≤ lines.length) :
    new_content lines (a : Int) (b : Int) (b : Int) = lines := by
  rw [new_content_natCast, Nat.sub_self, List.take_zero, List.nil_append]
  exact slice_decomp3 lines hab

/-- Witness for C10 at the 10-line scenario with `A = 2`, `B = C = 4`. -/
theorem empty_middle_identity_witness :
    new_content l10 (2 : Int) (4 : Int) (4 : Int) = l10 :=
  empty_middle_identity l10 2 4 (by decide) (by decide)

/-- Claim C8: when the file at the configured path is missing or not
readable, the run fails with an I/O fault (FileNotFound for a missing
path) before any write: the filesystem is returned unchanged and nothing
is printed. -/
theorem run_fault_leaves_fs_unchanged (fs : FS)
    (h : fs filepath = none ∨ ∃ f, fs filepath = some f ∧ f.readable = false) :
    ∃ e : IoError, run fs = (Except.error e, fs, []) := by
  rcases h with h | ⟨f, hf, hr⟩
  · exact ⟨IoError.fileNotFound, by simp [run, h]⟩
  · exact ⟨IoError.permissionDenied, by simp [run, hf, hr]⟩

/-- Witness for C8 on the empty filesystem: the run faults and leaves
the filesystem untouched. -/
theorem run_fault_leaves_fs_unchanged_witness :
    ∃ e : IoError,
      run (fun _ => none) = (Except.error e, (fun _ => none : FS), []) :=
  run_fault_leaves_fs_unchanged (fun _ => none) (Or.inl rfl)

/-- Claim C9: on success the run writes exactly one line to standard
output, the literal confirmation message, and nothing else. -/
theorem run_success_prints_one_line (fs : FS) (f : File)
    (hf : fs filepath = some f) (hr : f.readable = true) :
    (run fs).1 = Except.ok () ∧
      (run fs).2.2 = ["Successfully reordered migration file."] := by
  rw [show ["Successfully reordered migration file."] = [successMessage] from rfl]
  simp [run, hf, hr]

/-- Witness for C9 on a filesystem holding one readable empty file at
the configured path. -/
theorem run_success_prints_one_line_witness :
    (run (fun _ => some ⟨true, []⟩)).1 = Except.ok () ∧
      (run (fun _ => some ⟨true, []⟩)).2.2 =
        ["Successfully reordered migration file."] :=
  run_success_prints_one_line (fun _ => some ⟨true, []⟩) ⟨true, []⟩ rfl rfl

end Claims

end ReorderMigration
